import Mathlib

set_option maxRecDepth 4000

/-!
# Verification of the IntentLayer Python SDK core

Shallow embedding of the SDK's identity, gateway and intent-submission
code, with theorems settling the specification claims about it.

Bytes are modelled as `List Nat` (each entry `< 256` on the reachable
domain), machine reals (Python floats used only for retry delays) as `ℚ`,
and fallible code as `Except`/`Option` values.  Network and OS effects
(gRPC responses, HTTP responses, random jitter) are passed in explicitly
as oracle functions, so every definition is executable.
-/

namespace IntentLayer

/-! ## Byte and hex utilities -/

/-- Big-endian interpretation of a byte string as an unsigned integer,
as `int.from_bytes(bs, "big")` computes it. -/
def bytesToNat (bs : List Nat) : Nat :=
  bs.foldl (fun acc b => acc * 256 + b) 0

/-- Python `str.lower()` (ASCII range, which is all the code compares). -/
def strLower (s : String) : String := String.mk (s.toList.map Char.toLower)

/-- Python `str.upper()` (ASCII range). -/
def strUpper (s : String) : String := String.mk (s.toList.map Char.toUpper)

/-- Python `str.startswith(p)`. -/
def strStartsWith (s p : String) : Bool := p.toList.isPrefixOf s.toList

/-- Whether `p` occurs as a contiguous run inside `l`. -/
def charsContain (p : List Char) : List Char → Bool
  | [] => p.isEmpty
  | c :: cs => p.isPrefixOf (c :: cs) || charsContain p cs

/-- Python `p in s`: substring containment. -/
def strContains (s p : String) : Bool := charsContain p.toList s.toList

/-- Lowercase hexadecimal digit characters, in value order. -/
def hexChars : List Char := "0123456789abcdef".toList

/-- The hex digit character for a value `d < 16`. -/
def hexChar (d : Nat) : Char := hexChars.getD d '0'

/-- Numeric value of a hex digit character (upper or lower case),
`none` when the character is not a hex digit. -/
def hexVal (c : Char) : Option Nat :=
  if '0' ≤ c ∧ c ≤ '9' then some (c.toNat - '0'.toNat)
  else if 'a' ≤ c ∧ c ≤ 'f' then some (c.toNat - 'a'.toNat + 10)
  else if 'A' ≤ c ∧ c ≤ 'F' then some (c.toNat - 'A'.toNat + 10)
  else none

/-- Minimal-length lowercase hex digits of `n` (most significant first);
`fuel` bounds the recursion and any `fuel ≥ n` is exact. -/
def hexReprAux : Nat → Nat → List Char
  | 0, _ => []
  | fuel + 1, n =>
    if n = 0 then [] else hexReprAux fuel (n / 16) ++ [hexChar (n % 16)]

/-- Lowercase hexadecimal representation of `n`, as Python `format(n, "x")`. -/
def hexRepr (n : Nat) : List Char :=
  if n = 0 then ['0'] else hexReprAux n n

/-- Zero-padded lowercase hex of width `w`, as Python `format(n, f"0{w}x")`:
pads on the left with `'0'` up to a minimum width of `w`. -/
def hexPad (w n : Nat) : List Char :=
  let ds := hexRepr n
  List.replicate (w - ds.length) '0' ++ ds

/-- Value of a big-endian string of hex digits. -/
def hexDigitsVal (cs : List Char) : Nat :=
  cs.foldl (fun acc c => acc * 16 + (hexVal c).getD 0) 0

/-- `bytes.fromhex`: hex digit pairs, ASCII spaces allowed between pairs;
`none` on a stray character, a non-digit, or an odd digit inside a pair. -/
def bytesFromHex : List Char → Option (List Nat)
  | [] => some []
  | ' ' :: cs => bytesFromHex cs
  | c₁ :: c₂ :: cs =>
    match hexVal c₁, hexVal c₂ with
    | some d₁, some d₂ => (bytesFromHex cs).map fun bs => (d₁ * 16 + d₂) :: bs
    | _, _ => none
  | [_] => none

/-! ## Base58 (Bitcoin alphabet), as the `base58` package's `b58encode` -/

/-- The Bitcoin base58 alphabet used by `base58.b58encode`. -/
def b58Alphabet : List Char :=
  "123456789ABCDEFGHJKLMNPQRSTUVWXYZabcdefghijkmnopqrstuvwxyz".toList

/-- Base58 digit characters of `n` (most significant first); empty for `0`.
`fuel` bounds the recursion and any `fuel ≥ n` is exact. -/
def b58DigitsAux : Nat → Nat → List Char
  | 0, _ => []
  | fuel + 1, n =>
    if n = 0 then [] else b58DigitsAux fuel (n / 58) ++ [b58Alphabet.getD (n % 58) '1']

/-- `base58.b58encode` on a byte string: one `'1'` per leading zero byte,
then the base58 digits of the big-endian value.  The library does NOT
prepend any multibase prefix character. -/
def b58encode (bs : List Nat) : List Char :=
  let n := bytesToNat bs
  List.replicate (bs.takeWhile (· = 0)).length '1' ++ b58DigitsAux n n

/-! ## `derive_did_from_pubkey` (identity/crypto.py) -/

/-- `derive_did_from_pubkey`: prepend the multicodec bytes `0xED 0x01` to the
raw Ed25519 public key, base58-encode, and prepend the literal `did:key:`.
The source comments claim the base58 library already supplies the multibase
`z` prefix; `b58encode` adds no such character, so none appears here. -/
def derive_did_from_pubkey (public_key : List Nat) : String :=
  let multicodec_key := 0xED :: 0x01 :: public_key
  let encoded := String.mk (b58encode multicodec_key)
  "did:key:" ++ encoded

/-! ## SHA-256 (FIPS 180-4), the `hashlib.sha256` primitive -/

/-- Truncation to a 32-bit word. -/
def w32 (n : Nat) : Nat := n % 4294967296

/-- Right rotation of a 32-bit word by `k` bits. -/
def rotr (k n : Nat) : Nat := w32 ((n >>> k) ||| (n <<< (32 - k)))

/-- SHA-256 `Ch` function. -/
def shaCh (x y z : Nat) : Nat := (x &&& y) ^^^ ((x ^^^ 4294967295) &&& z)

/-- SHA-256 `Maj` function. -/
def shaMaj (x y z : Nat) : Nat := (x &&& y) ^^^ (x &&& z) ^^^ (y &&& z)

/-- SHA-256 `Σ₀`. -/
def bsig0 (x : Nat) : Nat := rotr 2 x ^^^ rotr 13 x ^^^ rotr 22 x

/-- SHA-256 `Σ₁`. -/
def bsig1 (x : Nat) : Nat := rotr 6 x ^^^ rotr 11 x ^^^ rotr 25 x

/-- SHA-256 `σ₀`. -/
def ssig0 (x : Nat) : Nat := rotr 7 x ^^^ rotr 18 x ^^^ (x >>> 3)

/-- SHA-256 `σ₁`. -/
def ssig1 (x : Nat) : Nat := rotr 17 x ^^^ rotr 19 x ^^^ (x >>> 10)

/-- The 64 SHA-256 round constants. -/
def shaK : List Nat :=
  [1116352408, 1899447441, 3049323471, 3921009573, 961987163, 1508970993,
   2453635748, 2870763221, 3624381080, 310598401, 607225278, 1426881987,
   1925078388, 2162078206, 2614888103, 3248222580, 3835390401, 4022224774,
   264347078, 604807628, 770255983, 1249150122, 1555081692, 1996064986,
   2554220882, 2821834349, 2952996808, 3210313671, 3336571891, 3584528711,
   113926993, 338241895, 666307205, 773529912, 1294757372, 1396182291,
   1695183700, 1986661051, 2177026350, 2456956037, 2730485921, 2820302411,
   3259730800, 3345764771, 3516065817, 3600352804, 4094571909, 275423344,
   430227734, 506948616, 659060556, 883997877, 958139571, 1322822218,
   1537002063, 1747873779, 1955562222, 2024104815, 2227730452, 2361852424,
   2428436474, 2756734187, 3204031479, 3329325298]

/-- Big-endian byte serialization of `n` into exactly `k` bytes. -/
def natToBytesBE : Nat → Nat → List Nat
  | 0, _ => []
  | k + 1, n => natToBytesBE k (n / 256) ++ [n % 256]

/-- SHA-256 message padding: a `0x80` byte, zero bytes up to 56 mod 64,
then the bit length as an 8-byte big-endian integer. -/
def sha256Pad (msg : List Nat) : List Nat :=
  let z := (119 - msg.length % 64) % 64
  msg ++ [0x80] ++ List.replicate z 0 ++ natToBytesBE 8 (8 * msg.length)

/-- Group bytes into big-endian 32-bit words (the length is a multiple of 4
after padding). -/
def bytesToWords : List Nat → List Nat
  | a :: b :: c :: d :: rest => (((a * 256 + b) * 256 + c) * 256 + d) :: bytesToWords rest
  | _ => []

/-- Split a word list into 16-word blocks; `fuel` bounds the recursion and
any `fuel ≥ length` is exact. -/
def chunk16 : Nat → List Nat → List (List Nat)
  | 0, _ => []
  | _, [] => []
  | fuel + 1, w :: ws => (w :: ws).take 16 :: chunk16 fuel ((w :: ws).drop 16)

/-- Extend a 16-word block to the 64-word message schedule: `fuel` counts
the 48 words still to append. -/
def scheduleAux : Nat → List Nat → List Nat
  | 0, acc => acc
  | fuel + 1, acc =>
    let t := acc.length
    let word := w32 (ssig1 (acc.getD (t - 2) 0) + acc.getD (t - 7) 0 +
      ssig0 (acc.getD (t - 15) 0) + acc.getD (t - 16) 0)
    scheduleAux fuel (acc ++ [word])

/-- The eight 32-bit working variables of SHA-256 compression. -/
structure ShaState where
  a : Nat
  b : Nat
  c : Nat
  d : Nat
  e : Nat
  f : Nat
  g : Nat
  hh : Nat
deriving Repr, DecidableEq

/-- The SHA-256 initial hash value. -/
def shaH0 : ShaState :=
  ⟨1779033703, 3144134277, 1013904242, 2773480762, 1359893119, 2600822924, 528734635, 1541459225⟩

/-- One SHA-256 compression round. -/
def shaRound (s : ShaState) (k w : Nat) : ShaState :=
  let T1 := w32 (s.hh + bsig1 s.e + shaCh s.e s.f s.g + k + w)
  let T2 := w32 (bsig0 s.a + shaMaj s.a s.b s.c)
  ⟨w32 (T1 + T2), s.a, s.b, s.c, w32 (s.d + T1), s.e, s.f, s.g⟩

/-- Process one 16-word block: run 64 rounds over the expanded schedule and
add the result into the chaining value. -/
def shaBlock (H : ShaState) (block : List Nat) : ShaState :=
  let W := scheduleAux 48 block
  let s := (shaK.zip W).foldl (fun s kw => shaRound s kw.1 kw.2) H
  ⟨w32 (H.a + s.a), w32 (H.b + s.b), w32 (H.c + s.c), w32 (H.d + s.d),
   w32 (H.e + s.e), w32 (H.f + s.f), w32 (H.g + s.g), w32 (H.hh + s.hh)⟩

/-- `hashlib.sha256(msg).digest()`: the 32 digest bytes. -/
def sha256Bytes (msg : List Nat) : List Nat :=
  let ws := bytesToWords (sha256Pad msg)
  let Hf := (chunk16 ws.length ws).foldl shaBlock shaH0
  [Hf.a, Hf.b, Hf.c, Hf.d, Hf.e, Hf.f, Hf.g, Hf.hh].flatMap (natToBytesBE 4)

/-- The digest interpreted as a big-endian unsigned integer, as
`int.from_bytes(hashlib.sha256(msg).digest(), "big")`. -/
def sha256Nat (msg : List Nat) : Nat := bytesToNat (sha256Bytes msg)

/-! ## Ethereum key derivation (identity/__init__.py, ec_constants.py) -/

/-- `SECP256K1_N` (ec_constants.py): the order of the SECP256K1 curve. -/
def SECP256K1_N : Nat := 0xFFFFFFFFFFFFFFFFFFFFFFFFFFFFFFFEBAAEDCE6AF48A03BBFD25E8CD0364141

/-- The integer value of the key `_derive_eth_key_from_ed25519` produces:
`(H mod (N - 1)) + 1` for `H` the SHA-256 digest of the Ed25519 private key
bytes read big-endian. -/
def ethKeyNat (s : List Nat) : Nat := sha256Nat s % (SECP256K1_N - 1) + 1

/-- `_derive_eth_key_from_ed25519`: serialize the derived key with Python
`"0x" + format(k, "064x")`. -/
def derive_eth_key_from_ed25519 (s : List Nat) : String :=
  "0x" ++ String.mk (hexPad 64 (ethKeyNat s))

/-! ## JWT validation (identity/jwt_util.py)

The `jwt` library's parsing and cryptography are external; a token is
modelled by the observations the source code makes of it: whether the raw
string is falsy, whether the header decodes, the header `alg` value,
whether the payload segment decodes, whether the signature verifies against
the supplied secret, whether the token is expired, and the decoded claims.
Every `jwt.decode` call the code makes is recorded as an event, so
"rejected before the body is decoded" is the absence of a body-decode
event. -/

structure JwtToken where
  empty : Bool
  headerOk : Bool
  alg : Option String
  bodyOk : Bool
  sigValid : Bool
  expired : Bool
  claims : List (String × String)

/-- One `jwt` library call made by `verify_jwt_token`: the header read, or a
`jwt.decode` of the body with the given verification options. -/
inductive JwtEvent
  | decodeHeader
  | decodeBody (verifySig : Bool) (verifyExp : Bool)
deriving DecidableEq, Repr

/-- Whether an event is a decode of the token body. -/
def isBodyDecode : JwtEvent → Bool
  | .decodeBody _ _ => true
  | _ => false

/-- `UNSAFE_JWT_ALGORITHMS` (jwt_util.py). -/
def UNSAFE_JWT_ALGORITHMS : List String := ["none", ""]

/-- `get_environment_tier`: normalize `INTENT_ENV_TIER` (default
`production`); unknown values fall back to `production`. -/
def get_environment_tier (envTierVar : Option String) : String :=
  let tier := strLower (envTierVar.getD "production")
  if tier = "prod" ∨ tier = "production" then "production"
  else if tier = "test" ∨ tier = "testing" ∨ tier = "qa" then "test"
  else if tier = "dev" ∨ tier = "development" ∨ tier = "local" then "development"
  else "production"

/-- `is_safe_jwt_algorithm`: the lowercased algorithm must not be in the
unsafe list. -/
def is_safe_jwt_algorithm (algorithm : String) : Bool :=
  !(UNSAFE_JWT_ALGORITHMS.contains (strLower algorithm))

/-- The nine algorithms the test and development tiers accept. -/
def extendedAlgorithms : List String :=
  ["HS256", "HS384", "HS512", "RS256", "RS384", "RS512", "ES256", "ES384", "ES512"]

/-- `verify_jwt_token`: tiered validation.  Returns the decoded claims (or
`none`) together with the list of `jwt` library calls performed, in order.
Every exception path of the source collapses to `none`, which the model
reflects directly. -/
def verify_jwt_token (token : JwtToken) (env_tier : Option String)
    (jwt_secret : Option String) (allowed_algorithms : Option (List String))
    (envTierVar : Option String) (envSecretVar : Option String) :
    Option (List (String × String)) × List JwtEvent :=
  if token.empty then (none, [])
  else
    let tier := env_tier.getD (get_environment_tier envTierVar)
    let secret := match jwt_secret with
      | some s => some s
      | none => envSecretVar
    let allowed := allowed_algorithms.getD
      (if tier = "production" then ["HS256"] else extendedAlgorithms)
    if ¬ token.headerOk then (none, [.decodeHeader])
    else
      let algorithm := token.alg.getD ""
      if ¬ is_safe_jwt_algorithm algorithm then (none, [.decodeHeader])
      else if ¬ allowed.contains algorithm then (none, [.decodeHeader])
      else if tier = "production" then
        match secret with
        | none => (none, [.decodeHeader])
        | some _ =>
          let events := [JwtEvent.decodeHeader, .decodeBody true true]
          if token.bodyOk ∧ token.sigValid ∧ ¬ token.expired then (some token.claims, events)
          else (none, events)
      else if tier = "test" then
        if strStartsWith (strUpper algorithm) "HS" ∧ secret.isSome then
          let e₁ := [JwtEvent.decodeHeader, .decodeBody true true]
          if token.bodyOk ∧ token.sigValid ∧ ¬ token.expired then (some token.claims, e₁)
          else
            let e₂ := e₁ ++ [.decodeBody false true]
            if token.bodyOk ∧ ¬ token.expired then (some token.claims, e₂) else (none, e₂)
        else
          let e₂ := [JwtEvent.decodeHeader, .decodeBody false true]
          if token.bodyOk ∧ ¬ token.expired then (some token.claims, e₂) else (none, e₂)
      else
        let e := [JwtEvent.decodeHeader, .decodeBody false false]
        if token.bodyOk then (some token.claims, e) else (none, e)

/-- A concrete token carrying the forged `alg: nOnE` header, a decodable
body with an `org_id` claim, a valid signature and no expiry. -/
def jwtNoneSample : JwtToken :=
  ⟨false, true, some "nOnE", true, true, false, [("org_id", "x")]⟩

/-! ## Gateway client (gateway/client.py, gateway/exceptions.py)

The gRPC transport is external; each attempt's observable outcome — a
returned receipt, an `RpcError` with a status code, or some other
exception with its `str(e)` text — is supplied by an oracle indexed by the
attempt's `retry_count`.  `random.uniform(0, 0.1)` is an oracle `u` of
jitter fractions, and delays are exact rationals.  Exception messages keep
the payload the source interpolates (error details, error codes); the
surrounding fixed prose of each f-string is elided. -/

/-- The members of the `RegisterError` enum (gateway/exceptions.py), as
their wire string values.  `register_did` also references a member
`INVALID_DOC_CID`, which this enum does not define. -/
def RegisterErrorMembers : List String :=
  ["UNKNOWN_UNSPECIFIED", "DOC_CID_EMPTY", "ALREADY_REGISTERED", "INVALID_DID",
   "SCHEMA_VERSION_MISMATCH", "INVALID_OPERATOR",
   "DID_QUOTA_EXCEEDED", "PROCESSING_ERROR", "UNAUTHORIZED", "INVALID_PAYLOAD"]

/-- A Gateway `TxReceipt` (gateway/client.py), `error_code` as its wire
string. -/
structure GwTxReceipt where
  hash : String
  gas_used : Nat
  success : Bool
  error : String
  error_code : String
deriving DecidableEq, Repr

/-- The exceptions `register_did` can raise, plus the Python
`AttributeError` produced by reading the absent enum member.
`AlreadyRegisteredError` exists in the source's taxonomy and is caught by
`IdentityManager.ensure_registered`, though `GatewayClient.register_did`
never raises it. -/
inductive GwExc
  | gatewayError (details : String)
  | gatewayConnectionError (details : String)
  | gatewayResponseError (code : String)
  | gatewayTimeoutError
  | quotaExceededError
  | alreadyRegisteredError
deriving DecidableEq, Repr

/-- gRPC status codes the exception handler branches on. -/
inductive GrpcCode
  | DEADLINE_EXCEEDED
  | UNAVAILABLE
  | RESOURCE_EXHAUSTED
  | INTERNAL
  | UNKNOWN
  | OTHER (s : String)
deriving DecidableEq, Repr

/-- What one `RegisterDid` RPC attempt observes. -/
inductive RpcOutcome
  | receipt (r : GwTxReceipt)
  | grpcError (code : GrpcCode) (details : String)
  | otherError (details : String)

/-- The result of a `register_did` call: the receipt returned or exception
raised, the number of RPC attempts made, and the sleeps taken before
retries, in order. -/
structure RegResult where
  outcome : Except GwExc GwTxReceipt
  attempts : Nat
  sleeps : List ℚ

/-- The substrings that make a non-gRPC exception retryable. -/
def retryableKeywords : List String :=
  ["timeout", "unavailable", "resource", "temporary", "overloaded", "connection refused"]

/-- `any(tok in error_details.lower() for tok in retryable_keywords)`. -/
def isRetryableText (details : String) : Bool :=
  retryableKeywords.any fun tok => strContains (strLower details) tok

/-- The retry loop of `register_did`.  `fuel` is the number of loop
iterations still allowed (`max_retries + 1 - retry_count` on every call),
`rc` the current `retry_count`, `le` the `last_error`, `sleeps` the delays
accumulated so far.  In the response chain, the branch after
`INVALID_DID` evaluates `RegisterError.INVALID_DOC_CID`; that member does
not exist, so Python raises `AttributeError("INVALID_DOC_CID")`, which the
attempt's general exception handler catches as a non-gRPC error — the
later `UNAUTHORIZED`/`INVALID_PAYLOAD` branches and the final
general-receipt-error branch are unreachable. -/
def register_did_loop (responses : Nat → RpcOutcome) (u : Nat → ℚ)
    (max_retries : Nat) (backoff_base : ℚ) :
    Nat → Nat → Option GwExc → List ℚ → RegResult
  | 0, rc, le, sleeps =>
    { outcome := .error (le.getD (.gatewayError "Failed to register DID after multiple attempts")),
      attempts := rc, sleeps := sleeps }
  | fuel + 1, rc, _le, sleeps =>
    let sleeps := if 0 < rc then sleeps ++ [backoff_base * 2 ^ (rc - 1) * (1 + u rc)] else sleeps
    match responses rc with
    | .receipt r =>
      if r.success then { outcome := .ok r, attempts := rc + 1, sleeps := sleeps }
      else if r.error_code = "ALREADY_REGISTERED" then
        { outcome := .ok r, attempts := rc + 1, sleeps := sleeps }
      else if r.error_code = "DID_QUOTA_EXCEEDED" then
        { outcome := .error .quotaExceededError, attempts := rc + 1, sleeps := sleeps }
      else if r.error_code = "INVALID_DID" then
        { outcome := .error (.gatewayResponseError r.error_code), attempts := rc + 1,
          sleeps := sleeps }
      else
        -- AttributeError("INVALID_DOC_CID") lands in the general handler:
        -- not a gRPC error, and its text contains no retryable keyword
        if isRetryableText "INVALID_DOC_CID" ∧ rc < max_retries then
          register_did_loop responses u max_retries backoff_base fuel (rc + 1)
            (some (.gatewayError "INVALID_DOC_CID")) sleeps
        else
          { outcome := .error (.gatewayError "INVALID_DOC_CID"), attempts := rc + 1,
            sleeps := sleeps }
    | .grpcError code details =>
      if code = .DEADLINE_EXCEEDED then
        { outcome := .error .gatewayTimeoutError, attempts := rc + 1, sleeps := sleeps }
      else
        let le' : GwExc :=
          if code = .UNAVAILABLE then .gatewayConnectionError details
          else .gatewayError details
        if (code = .UNAVAILABLE ∨ code = .RESOURCE_EXHAUSTED ∨ code = .INTERNAL ∨
            code = .UNKNOWN) ∧ rc < max_retries then
          register_did_loop responses u max_retries backoff_base fuel (rc + 1) (some le') sleeps
        else
          { outcome := .error le', attempts := rc + 1, sleeps := sleeps }
    | .otherError details =>
      if isRetryableText details ∧ rc < max_retries then
        register_did_loop responses u max_retries backoff_base fuel (rc + 1)
          (some (.gatewayError details)) sleeps
      else
        { outcome := .error (.gatewayError details), attempts := rc + 1, sleeps := sleeps }

/-- `GatewayClient.register_did` (defaults: `max_retries=3`,
`backoff_base=0.5`). -/
def register_did (responses : Nat → RpcOutcome) (u : Nat → ℚ)
    (max_retries : Nat) (backoff_base : ℚ) : RegResult :=
  register_did_loop responses u max_retries backoff_base (max_retries + 1) 0 none []

/-! ## `IdentityManager.ensure_registered` (identity/registration.py)

The single-caller (sequential) behaviour: the file/Redis lock is acquired
and released around the body but has no effect with one caller, so it is
not represented.  `flag0` is the manager's `_is_registered` flag on entry;
the outcome records the returned value or raised exception together with
the flag on exit. -/

inductive EnsureOutcome
  | returns (result : Bool) (flag : Bool)
  | raises (e : GwExc) (flag : Bool)
deriving DecidableEq, Repr

/-- `ensure_registered`: check the flag, re-check under the lock, call
`register_did`, and classify the outcome.  A receipt returned by
`register_did` — whatever its `success` or `error_code` — takes the
success path: the flag is set and `True` is returned.  Only a raised
`AlreadyRegisteredError` (which `GatewayClient.register_did` never raises)
takes the `False` path. -/
def ensure_registered (flag0 force : Bool) (responses : Nat → RpcOutcome)
    (u : Nat → ℚ) (max_retries : Nat) (backoff_base : ℚ) : EnsureOutcome :=
  if flag0 ∧ ¬force then .returns false flag0
  else if flag0 ∧ ¬force then .returns false flag0
  else
    match (register_did responses u max_retries backoff_base).outcome with
    | .ok _ => .returns true true
    | .error .alreadyRegisteredError => .returns false true
    | .error e => .raises e flag0

/-- The receipt the Gateway returns for an already-registered DID
(`success=False`, `error_code=ALREADY_REGISTERED`), which
`GatewayClient.register_did` returns rather than raising. -/
def alreadyRegisteredReceipt : GwTxReceipt :=
  { hash := "0x0000000000000000000000000000000000000000000000000000000000000000",
    gas_used := 0, success := false,
    error := "DID has already been registered",
    error_code := "ALREADY_REGISTERED" }

/-- A Gateway failure response carrying the `UNAUTHORIZED` error code. -/
def unauthorizedReceipt : GwTxReceipt :=
  { hash := "", gas_used := 0, success := false,
    error := "Unauthorized", error_code := "UNAUTHORIZED" }

/-- A concrete jitter oracle: every `random.uniform(0, 0.1)` draw comes out
`0.05`. -/
def jitterSample : Nat → {q : ℚ // 0 ≤ q ∧ q ≤ 1 / 10} :=
  fun _ => ⟨1 / 20, by norm_num⟩

/-! ## Pinner client (client.py `pin_to_ipfs`)

The HTTP layer is external; each `session.post` is an oracle outcome: a
response (status, whether the content type is `application/json`, whether
the body parses as JSON, the `cid` field if present) or a raised
`requests.RequestException` (with whether it is an `HTTPError` and the
associated status).  The source hardcodes `max_retries = 3` and
`backoff_factor = 0.5` inside the method, and its retry guard is
`retry_count < max_retries - 1`. -/

structure HttpResponse where
  status : Nat
  contentTypeJson : Bool
  jsonOk : Bool
  cid : Option String
deriving DecidableEq, Repr

/-- What one `session.post` call observes. -/
inductive PinAttempt
  | response (r : HttpResponse)
  | requestExc (isHttpError : Bool) (status : Nat) (details : String)

/-- The ways `pin_to_ipfs` fails, each raised as a `PinningError`:
wrapping an `HTTPError` with the given status, wrapping a non-HTTP
transport exception, a JSON parse failure, or a JSON body with no `cid`. -/
inductive PinErr
  | pinningHttp (status : Nat)
  | pinningTransport (details : String)
  | invalidJson
  | missingCid
deriving DecidableEq, Repr

/-- The result of a `pin_to_ipfs` call: the CID returned or `PinningError`
raised, the number of POSTs made, and the sleeps taken before retries. -/
structure PinResult where
  outcome : Except PinErr String
  posts : Nat
  sleeps : List ℚ

/-- The retry loop of `pin_to_ipfs`: `fuel` bounds iterations (3 suffices),
`rc` is `retry_count` (also the index of the POST this iteration makes,
since every retry increments it by one).  The source sleeps
`0.5 · 2^(retry_count - 1)` after incrementing `retry_count`, i.e.
`0.5 · 2^rc` in terms of the pre-increment value. -/
def pin_to_ipfs_loop (attempts : Nat → PinAttempt) :
    Nat → Nat → List ℚ → PinResult
  | 0, rc, sleeps =>
    { outcome := .error (.pinningTransport ""), posts := rc, sleeps := sleeps }
  | fuel + 1, rc, sleeps =>
    match attempts rc with
    | .response r =>
      if r.status < 500 then
        if 400 ≤ r.status then
          { outcome := .error (.pinningHttp r.status), posts := rc + 1, sleeps := sleeps }
        else if ¬ r.jsonOk then
          { outcome := .error .invalidJson, posts := rc + 1, sleeps := sleeps }
        else
          match r.cid with
          | none => { outcome := .error .missingCid, posts := rc + 1, sleeps := sleeps }
          | some c => { outcome := .ok c, posts := rc + 1, sleeps := sleeps }
      else
        if rc < 3 - 1 then
          pin_to_ipfs_loop attempts fuel (rc + 1) (sleeps ++ [(1/2 : ℚ) * 2 ^ rc])
        else
          { outcome := .error (.pinningHttp r.status), posts := rc + 1, sleeps := sleeps }
    | .requestExc ihe st details =>
      if ihe ∧ 500 ≤ st ∧ rc < 3 - 1 then
        pin_to_ipfs_loop attempts fuel (rc + 1) (sleeps ++ [(1/2 : ℚ) * 2 ^ rc])
      else if ihe then
        { outcome := .error (.pinningHttp st), posts := rc + 1, sleeps := sleeps }
      else
        { outcome := .error (.pinningTransport details), posts := rc + 1, sleeps := sleeps }

/-- `IntentClient.pin_to_ipfs`. -/
def pin_to_ipfs (attempts : Nat → PinAttempt) : PinResult :=
  pin_to_ipfs_loop attempts 3 0 []

/-! ## `IntentClient.send_intent` (client.py)

The pipeline through transaction submission.  Chain reads (nonce, gas
estimate, gas price) cannot fail observably — gas estimation failure falls
back to a default — so they are recorded as events only.  Receipt waiting
is outside the claims and elided: the `ok` outcome means the signed
transaction was sent. -/

/-- The payload dictionary, as `_validate_payload` observes it. -/
structure Payload where
  isDict : Bool
  hasEnvelope : Bool
  envelopeIsDict : Bool
  envelopeFields : List String

/-- The envelope fields `_validate_payload` requires. -/
def requiredEnvelopeFields : List String :=
  ["did", "model_id", "prompt_sha256", "tool_id", "timestamp_ms", "stake_wei", "sig_ed25519"]

/-- The steps of `send_intent`, in order; `buildTransaction` records the
exact envelope-hash bytes and CID bytes the transaction is built from. -/
inductive SendEvent
  | validatePayload
  | pinPayload
  | cidToBytes
  | normalizeHash
  | getNonce
  | estimateGas
  | buildTransaction (envelope_hash : List Nat) (cid_bytes : List Nat)
  | signTransaction
  | sendTransaction
deriving DecidableEq, Repr

/-- Whether an event is the transaction build. -/
def isBuildTx : SendEvent → Bool
  | .buildTransaction _ _ => true
  | _ => false

/-- The errors `send_intent` raises (messages keep the fixed identifying
prose of the source, without interpolated library detail). -/
inductive SendErr
  | envelopeError (reason : String)
  | pinningError (e : PinErr)
  | transactionError (reason : String)
  | valueError (reason : String)
deriving DecidableEq, Repr

/-- `_validate_payload`. -/
def validate_payload (p : Payload) : Except SendErr Unit :=
  if ¬ p.isDict then .error (.envelopeError "Payload must be a dictionary")
  else if ¬ p.hasEnvelope then .error (.envelopeError "Payload must contain envelope dictionary")
  else if ¬ p.envelopeIsDict then .error (.envelopeError "envelope must be a dictionary")
  else if (requiredEnvelopeFields.filter (fun f => ¬ p.envelopeFields.contains f)) ≠ [] then
    .error (.envelopeError "Envelope missing required fields")
  else .ok ()

/-- Strip the optional `0x` prefix of the envelope hash, as
`envelope_hash[2:]`. -/
def strip0x (h : String) : List Char :=
  if strStartsWith h "0x" then h.toList.drop 2 else h.toList

/-- The result of a `send_intent` call: the transaction hash or the raised
error, and the pipeline steps performed, in order. -/
structure SendResult where
  outcome : Except SendErr String
  events : List SendEvent

/-- `send_intent`: validate the payload, pin it, convert the CID, normalize
the envelope hash (strip `0x`, `bytes.fromhex`; a failed parse raises
`EnvelopeError` — the decoded byte length is never checked), then read the
nonce, estimate gas, build, sign, and send the transaction.
`cidConvert` stands for `ipfs_cid_to_bytes` (utils.py); `signOk`/`sendOk`
for the signer and the RPC node accepting the transaction. -/
def send_intent (hasContract hasSigner : Bool) (envelope_hash : String)
    (payload : Payload) (pinAttempts : Nat → PinAttempt)
    (cidConvert : String → Except String (List Nat))
    (signOk sendOk : Bool) (txHash : String) : SendResult :=
  if ¬ hasContract then
    { outcome := .error (.valueError "Contract address not provided"), events := [] }
  else if ¬ hasSigner then
    { outcome := .error (.valueError "Neither account nor signer is available"), events := [] }
  else
    match validate_payload payload with
    | .error e => { outcome := .error e, events := [.validatePayload] }
    | .ok _ =>
      let ev₀ := [SendEvent.validatePayload, .pinPayload]
      match (pin_to_ipfs pinAttempts).outcome with
      | .error pe => { outcome := .error (.pinningError pe), events := ev₀ }
      | .ok cid =>
        match cidConvert cid with
        | .error _ =>
          { outcome := .error (.envelopeError "Failed to convert CID to bytes"),
            events := ev₀ ++ [.cidToBytes] }
        | .ok cid_bytes =>
          let ev₁ := ev₀ ++ [SendEvent.cidToBytes, .normalizeHash]
          match bytesFromHex (strip0x envelope_hash) with
          | none =>
            { outcome := .error (.envelopeError "Invalid envelope hash format"), events := ev₁ }
          | some hash_bytes =>
            let ev₂ := ev₁ ++ [SendEvent.getNonce, .estimateGas,
              .buildTransaction hash_bytes cid_bytes, .signTransaction]
            if ¬ signOk then
              { outcome := .error (.transactionError "Failed to sign transaction"), events := ev₂ }
            else
              let ev₃ := ev₂ ++ [SendEvent.sendTransaction]
              if ¬ sendOk then
                { outcome := .error (.transactionError "Failed to send transaction"),
                  events := ev₃ }
              else { outcome := .ok txHash, events := ev₃ }

/-- A pinner oracle answering 500 to the first three POSTs and success with
a CID to any later one. -/
def c7PinOracle : Nat → PinAttempt := fun i =>
  if i < 3 then .response ⟨500, false, false, none⟩
  else .response ⟨200, true, true, some "QmTestCID"⟩

/-- A pinner oracle that always answers 404. -/
def c7Oracle4xx : Nat → PinAttempt := fun _ => .response ⟨404, true, true, none⟩

/-- A pinner oracle that always answers 503. -/
def c7Oracle5xx : Nat → PinAttempt := fun _ => .response ⟨503, false, false, none⟩

/-- A pinner oracle that always succeeds with a CID. -/
def benignPinOracle : Nat → PinAttempt := fun _ => .response ⟨200, true, true, some "QmX"⟩

/-- A CID converter that always yields the bytes `[1, 2, 3]`. -/
def benignCidConvert : String → Except String (List Nat) := fun _ => .ok [1, 2, 3]

/-- A payload carrying every required envelope field. -/
def payloadSample : Payload := ⟨true, true, true, requiredEnvelopeFields⟩

/-! ## KeyStore selection (identity/__init__.py `get_or_create_did`)

`KeyStore.list_identities` returns `list(store["identities"].values())`:
the entries in the JSON dict's insertion order, modelled as a list.  An
entry carries its unencrypted `metadata.created_at` (`metadata` itself may
be absent, and may lack `created_at`) and the legacy top-level
`created_at`; decryption preserves which entry was chosen, so the
selection is modelled as returning the stored entry itself.  Python's
`sorted(..., reverse=True)` is a stable descending sort — equal keys keep
their original order — and string keys compare lexicographically by code
point. -/

structure StoredIdentity where
  did : String
  metadata : Option (Option String)
  created_at_legacy : Option String
deriving DecidableEq, Repr

/-- The sort key `get_or_create_did` computes:
`metadata.created_at` (default `""`) when a `metadata` dict exists, else
the top-level `created_at` (default `""`). -/
def sortKey (e : StoredIdentity) : String :=
  match e.metadata with
  | some m => m.getD ""
  | none => e.created_at_legacy.getD ""

/-- Python `str.__le__`: lexicographic by code point. -/
def charsLe : List Char → List Char → Bool
  | [], _ => true
  | _ :: _, [] => false
  | a :: as, b :: bs => if a = b then charsLe as bs else decide (a < b)

/-- String comparison as Python's `<=` on `str`. -/
def pyStrLe (a b : String) : Bool := charsLe a.toList b.toList

/-- Stable insertion of `x` before the first element whose key is not
`≥ x`'s: among equal keys the element inserted (originally earlier) comes
first, as Python's stable `sorted` keeps it. -/
def insertDesc (x : StoredIdentity) : List StoredIdentity → List StoredIdentity
  | [] => [x]
  | y :: ys => if pyStrLe (sortKey y) (sortKey x) then x :: y :: ys else y :: insertDesc x ys

/-- Python `sorted(entries, key=sortKey, reverse=True)`: stable descending
sort. -/
def sortedDesc : List StoredIdentity → List StoredIdentity
  | [] => []
  | x :: xs => insertDesc x (sortedDesc xs)

/-- The first entry with maximal key — the spec-side selection: latest
`created_at`, ties broken by the earliest entry in iteration order. -/
def firstMaxBy : List StoredIdentity → Option StoredIdentity
  | [] => none
  | x :: xs =>
    match firstMaxBy xs with
    | none => some x
    | some m => if pyStrLe (sortKey m) (sortKey x) then some x else some m

/-- The observable outcomes of `get_or_create_did`: an existing entry
selected (and then decrypted), a fresh identity created and persisted, or
the `ValueError` when the store is empty and `auto=False`. -/
inductive GetOrCreateResult
  | got (e : StoredIdentity)
  | created (e : StoredIdentity) (store : List StoredIdentity)
  | failed
deriving DecidableEq, Repr

/-- `get_or_create_did`: list the identities; when non-empty, take the head
of the stable descending sort by `sortKey`; when empty, fail if `auto` is
false, else persist the freshly generated identity (`fresh` stands for the
keypair generation) by appending it to the store. -/
def get_or_create_did (store : List StoredIdentity) (auto : Bool)
    (fresh : StoredIdentity) : GetOrCreateResult :=
  match store with
  | [] => if auto then .created fresh (store ++ [fresh]) else .failed
  | e :: es => .got (((sortedDesc (e :: es)).head?).getD e)

/-- Two stored identities sharing the same `metadata.created_at`. -/
def storedA : StoredIdentity := ⟨"did:key:zA", some (some "2024-01-01T00:00:00"), none⟩

/-- A distinct entry with the same `metadata.created_at` as `storedA`,
stored after it. -/
def storedB : StoredIdentity := ⟨"did:key:zB", some (some "2024-01-01T00:00:00"), none⟩

/-- A freshly generated identity used for the `auto=True` empty-store
branch. -/
def freshSample : StoredIdentity := ⟨"did:key:zFresh", some (some "2030-06-01T12:00:00"), none⟩

/-! ## Correctness lemmas for the hex serializer -/

theorem hexVal_hexChar : ∀ d < 16, hexVal (hexChar d) = some d := by decide

theorem hexDigitsVal_append_singleton (xs : List Char) (c : Char) :
    hexDigitsVal (xs ++ [c]) = 16 * hexDigitsVal xs + (hexVal c).getD 0 := by
  simp [hexDigitsVal, List.foldl_append, Nat.mul_comm]

theorem hexReprAux_val : ∀ fuel n, n ≤ fuel → hexDigitsVal (hexReprAux fuel n) = n := by
  intro fuel
  induction fuel with
  | zero => intro n hn; interval_cases n; simp [hexReprAux, hexDigitsVal]
  | succ f ih =>
    intro n hn
    by_cases h0 : n = 0
    · simp [hexReprAux, h0, hexDigitsVal]
    · have hdiv : n / 16 ≤ f := by
        have : n / 16 < n := Nat.div_lt_self (Nat.pos_of_ne_zero h0) (by omega)
        omega
      have hd := hexVal_hexChar (n % 16) (Nat.mod_lt n (by omega))
      simp only [hexReprAux, h0, if_false]
      rw [hexDigitsVal_append_singleton, ih _ hdiv, hd]
      simp [Nat.div_add_mod, Nat.mul_comm]

theorem hexReprAux_length :
    ∀ fuel n m, n < 16 ^ m → (hexReprAux fuel n).length ≤ m := by
  intro fuel
  induction fuel with
  | zero => intro n m _; simp [hexReprAux]
  | succ f ih =>
    intro n m hm
    by_cases h0 : n = 0
    · simp [hexReprAux, h0]
    · have hm1 : 1 ≤ m := by
        by_contra hc
        push_neg at hc
        interval_cases m
        simp at hm
        omega
      have hdiv : n / 16 < 16 ^ (m - 1) := by
        have h16 : 16 ^ m = 16 ^ (m - 1) * 16 := by
          conv_lhs => rw [show m = (m - 1) + 1 by omega]
          ring
        exact Nat.div_lt_of_lt_mul (by omega)
      have := ih (n / 16) (m - 1) hdiv
      simp only [hexReprAux, h0, if_false, List.length_append, List.length_cons,
        List.length_nil]
      omega

theorem hexReprAux_digits :
    ∀ fuel n c, c ∈ hexReprAux fuel n → (hexVal c).isSome := by
  intro fuel
  induction fuel with
  | zero => intro n c hc; simp [hexReprAux] at hc
  | succ f ih =>
    intro n c hc
    by_cases h0 : n = 0
    · simp [hexReprAux, h0] at hc
    · simp only [hexReprAux, h0, if_false, List.mem_append, List.mem_singleton] at hc
      rcases hc with hc | hc
      · exact ih _ _ hc
      · subst hc
        rw [hexVal_hexChar (n % 16) (Nat.mod_lt n (by omega))]
        rfl

theorem hexDigitsVal_replicate_zero_append (k : Nat) (ds : List Char) :
    hexDigitsVal (List.replicate k '0' ++ ds) = hexDigitsVal ds := by
  induction k with
  | zero => simp
  | succ j ih =>
    have : List.replicate (j + 1) '0' ++ ds = '0' :: (List.replicate j '0' ++ ds) := by
      simp [List.replicate_succ]
    rw [this]
    simpa [hexDigitsVal, hexVal] using ih

theorem hexPad_spec {w n : Nat} (hw : 1 ≤ w) (hn : n < 16 ^ w) :
    (hexPad w n).length = w ∧ hexDigitsVal (hexPad w n) = n ∧
    ∀ c ∈ hexPad w n, (hexVal c).isSome := by
  have hlen : (hexRepr n).length ≤ w := by
    by_cases h0 : n = 0
    · simpa [hexRepr, h0] using hw
    · simpa [hexRepr, h0] using hexReprAux_length n n w hn
  have hval : hexDigitsVal (hexRepr n) = n := by
    by_cases h0 : n = 0
    · simp [hexRepr, h0, hexDigitsVal, hexVal]
    · simpa [hexRepr, h0] using hexReprAux_val n n le_rfl
  refine ⟨?_, ?_, ?_⟩
  · simp only [hexPad, List.length_append, List.length_replicate]
    omega
  · simpa [hexPad, hexDigitsVal_replicate_zero_append] using hval
  · intro c hc
    simp only [hexPad, List.mem_append, List.mem_replicate] at hc
    rcases hc with ⟨-, hc⟩ | hc
    · subst hc; rfl
    · by_cases h0 : n = 0
      · simp [hexRepr, h0] at hc
        subst hc; rfl
      · exact hexReprAux_digits n n c (by simpa [hexRepr, h0] using hc)

/-! ## Claim theorems: C1 and C10 -/

/-- Claim C1: the spec claims `derive_did(pub)` is the literal `did:key:z` followed
by base58 of `0xED 0x01 || pub`, so that the 32-zero-byte key yields a DID
starting `did:key:z1`.  The code base58-encodes correctly but never prepends
the multibase `z` (its comment wrongly asserts the base58 library does), so
the zero key yields `did:key:6Mk…` — no `z`, hence no `z1` prefix. -/
theorem C1_derive_did_zero_key_has_no_multibase_prefix :
    derive_did_from_pubkey (List.replicate 32 0) =
      "did:key:6MkeTG3bFFSLYVU7VqhgZxqr6YzpaGrQtFMh1uvqGy1vDnP" ∧
    (derive_did_from_pubkey (List.replicate 32 0)).toList.take 9 ≠ "did:key:z".toList := by
  constructor
  · decide
  · decide

/-- Claim C10: for every Ed25519 private-key byte string `s`, the derived key is
`k = (H mod (N - 1)) + 1` for `H = SHA-256(s)` big-endian, hence
`1 ≤ k ≤ N - 1`; the serialization is `0x` followed by exactly 64 hex digit
characters whose big-endian value is `k`. -/
theorem C10_eth_key_range_and_serialization (s : List Nat) :
    ethKeyNat s = sha256Nat s % (SECP256K1_N - 1) + 1 ∧
    1 ≤ ethKeyNat s ∧ ethKeyNat s ≤ SECP256K1_N - 1 ∧
    derive_eth_key_from_ed25519 s = "0x" ++ String.mk (hexPad 64 (ethKeyNat s)) ∧
    (hexPad 64 (ethKeyNat s)).length = 64 ∧
    (∀ c ∈ hexPad 64 (ethKeyNat s), (hexVal c).isSome) ∧
    hexDigitsVal (hexPad 64 (ethKeyNat s)) = ethKeyNat s := by
  have hNpos : 0 < SECP256K1_N - 1 := by decide
  have hmod : sha256Nat s % (SECP256K1_N - 1) < SECP256K1_N - 1 :=
    Nat.mod_lt _ hNpos
  have hk_le : ethKeyNat s ≤ SECP256K1_N - 1 := by
    unfold ethKeyNat; omega
  have hk_lt : ethKeyNat s < 16 ^ 64 := by
    have : SECP256K1_N - 1 < 16 ^ 64 := by decide
    omega
  obtain ⟨hlen, hval, hdig⟩ := hexPad_spec (w := 64) (by omega) hk_lt
  exact ⟨rfl, by unfold ethKeyNat; omega, hk_le, rfl, hlen, hdig, hval⟩

/-- Claim C3: whenever the token's header `alg`, lowercased, is `none` or the empty
string, `verify_jwt_token` returns no claim — for every tier argument, tier
environment value, secret, and allowed-algorithm list, regardless of the
signature — and no decode of the token body is ever attempted. -/
theorem C3_unsafe_algorithm_rejected_before_body_decode
    (token : JwtToken) (env_tier jwt_secret : Option String)
    (allowed_algorithms : Option (List String)) (envTierVar envSecretVar : Option String)
    (halg : strLower (token.alg.getD "") = "none" ∨ (token.alg.getD "") = "") :
    (verify_jwt_token token env_tier jwt_secret allowed_algorithms
      envTierVar envSecretVar).1 = none ∧
    (verify_jwt_token token env_tier jwt_secret allowed_algorithms
      envTierVar envSecretVar).2.all (fun e => !isBodyDecode e) = true := by
  have hunsafe : is_safe_jwt_algorithm (token.alg.getD "") = false := by
    rcases halg with h | h
    · simp only [is_safe_jwt_algorithm]
      rw [h]
      decide
    · simp only [is_safe_jwt_algorithm]
      rw [h]
      decide
  by_cases hemp : token.empty
  · simp [verify_jwt_token, hemp]
  · by_cases hhdr : token.headerOk
    · simp [verify_jwt_token, hemp, hhdr, hunsafe, isBodyDecode]
    · simp [verify_jwt_token, hemp, hhdr, isBodyDecode]

/-- Witness for C3 at a concrete token with header `alg = "nOnE"` and a
valid signature, in the production tier with a secret present. -/
theorem C3_unsafe_algorithm_rejected_before_body_decode_witness :
    (strLower (jwtNoneSample.alg.getD "") = "none" ∨ (jwtNoneSample.alg.getD "") = "") ∧
    (verify_jwt_token jwtNoneSample (some "production") (some "s") none none none).1 = none ∧
    (verify_jwt_token jwtNoneSample (some "production") (some "s") none none none).2.all
      (fun e => !isBodyDecode e) = true :=
  ⟨Or.inl (by decide),
   C3_unsafe_algorithm_rejected_before_body_decode _ _ _ _ _ _ (Or.inl (by decide))⟩

/-! ## Gateway retry lemmas -/

theorem register_loop_all_unavailable
    (responses : Nat → RpcOutcome) (details : Nat → String) (u : Nat → ℚ)
    (max_retries : Nat) (backoff_base : ℚ)
    (hresp : ∀ n, responses n = .grpcError .UNAVAILABLE (details n)) :
    ∀ fuel rc acc le, fuel + rc = max_retries + 1 → 1 ≤ rc → rc ≤ max_retries →
    register_did_loop responses u max_retries backoff_base fuel rc le acc =
      { outcome := .error (.gatewayConnectionError (details max_retries)),
        attempts := max_retries + 1,
        sleeps := acc ++ (List.range' rc fuel).map
          (fun j => backoff_base * 2 ^ (j - 1) * (1 + u j)) } := by
  intro fuel
  induction fuel with
  | zero => intro rc acc le h1 h2 h3; omega
  | succ f ih =>
    intro rc acc le h1 h2 h3
    have h0 : 0 < rc := h2
    by_cases hrc : rc < max_retries
    · have step : register_did_loop responses u max_retries backoff_base (f + 1) rc le acc =
        register_did_loop responses u max_retries backoff_base f (rc + 1)
          (some (.gatewayConnectionError (details rc)))
          (acc ++ [backoff_base * 2 ^ (rc - 1) * (1 + u rc)]) := by
        rw [register_did_loop, hresp rc]
        simp [h0, hrc]
      rw [step, ih (rc + 1) _ _ (by omega) (by omega) (by omega)]
      have hrange : List.range' rc (f + 1) = rc :: List.range' (rc + 1) f := by
        rw [List.range'_succ]
      rw [hrange]
      simp
    · have hrceq : rc = max_retries := by omega
      have hf : f = 0 := by omega
      subst hrceq hf
      rw [register_did_loop, hresp rc]
      simp [h0, List.range'_succ]

theorem chain_lt_map_range (g : ℕ → ℚ) (hg : ∀ i, g i < g (i + 1)) (n : ℕ) :
    List.Chain' (· < ·) ((List.range n).map g) := by
  cases n with
  | zero => simp
  | succ m =>
    rw [List.chain'_map, List.chain'_range_succ]
    intro k _
    exact hg k

/-! ## Claim theorems: C4, C5, C6 -/

/-- Claim C4: the spec claims that when the Gateway reports `ALREADY_REGISTERED`
through a returned receipt (not an exception), `ensure_registered` sets the
flag and returns `False`.  The code's `register_did` does return that
receipt unraised after one attempt, but `ensure_registered` never inspects
it: it takes the success path, sets the flag, and returns `True` —
contradicting its own docstring (`False if already registered`) and leaving
its `AlreadyRegisteredError` handler unreachable from this client. -/
theorem C4_already_registered_receipt_returns_true :
    (register_did (fun _ => .receipt alreadyRegisteredReceipt) (fun _ => 0) 3 (1/2)).outcome
      = .ok alreadyRegisteredReceipt ∧
    (register_did (fun _ => .receipt alreadyRegisteredReceipt) (fun _ => 0) 3 (1/2)).attempts
      = 1 ∧
    ensure_registered false false (fun _ => .receipt alreadyRegisteredReceipt)
      (fun _ => 0) 3 (1/2) = .returns true true :=
  ⟨rfl, rfl, by decide⟩

/-- Claim C5: the spec claims a `success=False` response with `UNAUTHORIZED`
(likewise `INVALID_PAYLOAD`, `INVALID_DOC_CID`) raises
`GatewayResponseError` carrying the code, and that the `RegisterError` enum
has an `INVALID_DOC_CID` member.  The enum has no such member, so the elif
chain raises `AttributeError("INVALID_DOC_CID")` before the `UNAUTHORIZED`
branch is reached; the handler wraps it as a plain non-retryable
`GatewayError` with no error code, after exactly one attempt. -/
theorem C5_unauthorized_hits_absent_enum_member :
    "INVALID_DOC_CID" ∉ RegisterErrorMembers ∧
    (register_did (fun _ => .receipt unauthorizedReceipt) (fun _ => 0) 3 (1/2)).outcome
      = .error (.gatewayError "INVALID_DOC_CID") ∧
    (register_did (fun _ => .receipt unauthorizedReceipt) (fun _ => 0) 3 (1/2)).attempts = 1 :=
  ⟨by decide, rfl, rfl⟩

/-- Claim C6: when every attempt fails with transport `UNAVAILABLE`, the call
makes exactly `max_retries + 1` attempts; the sleep before retry `n`
(1-based) is `backoff_base · 2^(n-1) · (1 + u_n)` with each jitter fraction
`u_n ∈ [0, 0.1]`, so the sleeps are strictly increasing; the final raise
wraps the unavailability in `GatewayConnectionError`. -/
theorem C6_unavailable_retry_schedule
    (responses : Nat → RpcOutcome) (details : Nat → String)
    (u : Nat → {q : ℚ // 0 ≤ q ∧ q ≤ 1 / 10})
    (max_retries : Nat) (backoff_base : ℚ)
    (hresp : responses = fun n => .grpcError .UNAVAILABLE (details n))
    (hb : 0 < backoff_base) :
    (register_did responses (fun n => (u n).1) max_retries backoff_base).attempts
      = max_retries + 1 ∧
    (register_did responses (fun n => (u n).1) max_retries backoff_base).sleeps =
      (List.range max_retries).map
        (fun i => backoff_base * 2 ^ i * (1 + (u (i + 1)).1)) ∧
    List.Chain' (· < ·)
      (register_did responses (fun n => (u n).1) max_retries backoff_base).sleeps ∧
    (register_did responses (fun n => (u n).1) max_retries backoff_base).outcome =
      .error (.gatewayConnectionError (details max_retries)) := by
  have hresp' : ∀ n, responses n = .grpcError .UNAVAILABLE (details n) := by
    intro n; rw [hresp]
  have hmono : ∀ i, backoff_base * 2 ^ i * (1 + (u (i + 1)).1) <
      backoff_base * 2 ^ (i + 1) * (1 + (u (i + 2)).1) := by
    intro i
    have hu1 := (u (i + 1)).2
    have hu2 := (u (i + 2)).2
    have hfac : 1 + (u (i + 1)).1 < 2 * (1 + (u (i + 2)).1) := by
      rcases hu1 with ⟨-, h1⟩
      rcases hu2 with ⟨h2, -⟩
      linarith
    calc backoff_base * 2 ^ i * (1 + (u (i + 1)).1)
        < backoff_base * 2 ^ i * (2 * (1 + (u (i + 2)).1)) := by
          apply mul_lt_mul_of_pos_left hfac
          positivity
      _ = backoff_base * 2 ^ (i + 1) * (1 + (u (i + 2)).1) := by ring
  have hmain : register_did responses (fun n => (u n).1) max_retries backoff_base =
      { outcome := .error (.gatewayConnectionError (details max_retries)),
        attempts := max_retries + 1,
        sleeps := (List.range max_retries).map
          (fun i => backoff_base * 2 ^ i * (1 + (u (i + 1)).1)) } := by
    cases max_retries with
    | zero =>
      rw [register_did, register_did_loop, hresp' 0]
      simp
    | succ m =>
      rw [register_did]
      have step : register_did_loop responses (fun n => (u n).1) (m + 1) backoff_base
          (m + 2) 0 none [] =
          register_did_loop responses (fun n => (u n).1) (m + 1) backoff_base
            (m + 1) 1 (some (.gatewayConnectionError (details 0))) [] := by
        rw [register_did_loop, hresp' 0]
        simp
      rw [step, register_loop_all_unavailable responses details _ _ _ hresp' (m + 1) 1 [] _
        (by omega) le_rfl (by omega)]
      have : List.range' 1 (m + 1) = (List.range (m + 1)).map (1 + ·) := by
        rw [List.range'_eq_map_range]
      simp only [this, List.map_map, List.nil_append, RegResult.mk.injEq]
      refine ⟨trivial, trivial, ?_⟩
      apply List.map_congr_left
      intro i _
      simp only [Function.comp_apply]
      rw [Nat.add_comm 1 i, Nat.add_sub_cancel]
  rw [hmain]
  refine ⟨rfl, rfl, ?_, rfl⟩
  exact chain_lt_map_range _ hmono _

/-- Witness for C6: two retries (`max_retries = 2`), base delay `0.5`,
constant `0.05` jitter, every attempt `UNAVAILABLE`. -/
theorem C6_unavailable_retry_schedule_witness :
    ((fun _ : Nat => RpcOutcome.grpcError .UNAVAILABLE "connection refused") =
      fun n : Nat => RpcOutcome.grpcError .UNAVAILABLE ((fun _ : Nat => "connection refused") n)) ∧
    (0 : ℚ) < 1/2 ∧
    ((register_did (fun _ => RpcOutcome.grpcError .UNAVAILABLE "connection refused")
        (fun n => (jitterSample n).1) 2 (1/2)).attempts = 2 + 1 ∧
      (register_did (fun _ => RpcOutcome.grpcError .UNAVAILABLE "connection refused")
        (fun n => (jitterSample n).1) 2 (1/2)).sleeps =
        (List.range 2).map (fun i => (1/2 : ℚ) * 2 ^ i * (1 + (jitterSample (i + 1)).1)) ∧
      List.Chain' (· < ·)
        (register_did (fun _ => RpcOutcome.grpcError .UNAVAILABLE "connection refused")
          (fun n => (jitterSample n).1) 2 (1/2)).sleeps ∧
      (register_did (fun _ => RpcOutcome.grpcError .UNAVAILABLE "connection refused")
        (fun n => (jitterSample n).1) 2 (1/2)).outcome =
        .error (.gatewayConnectionError ((fun _ : Nat => "connection refused") 2))) :=
  ⟨rfl, by norm_num,
   C6_unavailable_retry_schedule _ (fun _ => "connection refused") jitterSample 2 (1/2)
     rfl (by norm_num)⟩

/-! ## Pinner claim theorems: C7 -/

/-- Claim C7 counterexample: the claim says 5xx responses are retried up to 3
times.  With 500 answered to the first three POSTs and success available on
the fourth, the loop guard `retry_count < max_retries - 1` stops after two
retries: three POSTs total, two sleeps, and `PinningError` — a third retry
(which would have returned the CID) never happens. -/
theorem C7_counterexample_only_two_retries :
    (pin_to_ipfs c7PinOracle).outcome = .error (.pinningHttp 500) ∧
    (pin_to_ipfs c7PinOracle).posts = 3 ∧
    (pin_to_ipfs c7PinOracle).sleeps = [1/2, 1] ∧
    c7PinOracle 3 = .response ⟨200, true, true, some "QmTestCID"⟩ := by
  refine ⟨rfl, rfl, ?_, rfl⟩
  have : (pin_to_ipfs c7PinOracle).sleeps = [(1/2 : ℚ) * 2 ^ 0, (1/2 : ℚ) * 2 ^ 1] := rfl
  rw [this]
  norm_num

/-- Claim C7 as amended: a 4xx response raises `PinningError` wrapping the HTTP
error after a single POST with no retry; all-5xx responses are retried
twice (three POSTs total), sleeping `0.5 · 2^(n-1)` seconds before retry
`n`, and raise `PinningError` wrapping the final HTTP error when the
retries are exhausted. -/
theorem C7_pin_retry_behavior (attempts : Nat → PinAttempt) (r₀ r₁ r₂ : HttpResponse)
    (h0 : attempts 0 = .response r₀) (h1 : attempts 1 = .response r₁)
    (h2 : attempts 2 = .response r₂) :
    (400 ≤ r₀.status → r₀.status < 500 →
      (pin_to_ipfs attempts).outcome = .error (.pinningHttp r₀.status) ∧
      (pin_to_ipfs attempts).posts = 1 ∧ (pin_to_ipfs attempts).sleeps = []) ∧
    (500 ≤ r₀.status → 500 ≤ r₁.status → 500 ≤ r₂.status →
      (pin_to_ipfs attempts).outcome = .error (.pinningHttp r₂.status) ∧
      (pin_to_ipfs attempts).posts = 3 ∧
      (pin_to_ipfs attempts).sleeps = [1/2, 1]) := by
  constructor
  · intro h4a h4b
    have hfuel : (3 : Nat) = 2 + 1 := rfl
    have : pin_to_ipfs attempts =
        { outcome := .error (.pinningHttp r₀.status), posts := 1, sleeps := [] } := by
      rw [pin_to_ipfs, hfuel, pin_to_ipfs_loop, h0]
      simp [h4b, h4a]
    rw [this]
    exact ⟨rfl, rfl, rfl⟩
  · intro h5a h5b h5c
    have hn0 : ¬ (r₀.status < 500) := by omega
    have hn1 : ¬ (r₁.status < 500) := by omega
    have hn2 : ¬ (r₂.status < 500) := by omega
    have s0 : pin_to_ipfs attempts =
        pin_to_ipfs_loop attempts 2 1 [(1/2 : ℚ) * 2 ^ 0] := by
      rw [pin_to_ipfs, show (3 : Nat) = 2 + 1 from rfl, pin_to_ipfs_loop, h0]
      simp [hn0]
    have s1 : pin_to_ipfs_loop attempts 2 1 [(1/2 : ℚ) * 2 ^ 0] =
        pin_to_ipfs_loop attempts 1 2 [(1/2 : ℚ) * 2 ^ 0, (1/2 : ℚ) * 2 ^ 1] := by
      rw [show (2 : Nat) = 1 + 1 from rfl, pin_to_ipfs_loop, h1]
      simp [hn1]
    have s2 : pin_to_ipfs_loop attempts 1 2 [(1/2 : ℚ) * 2 ^ 0, (1/2 : ℚ) * 2 ^ 1] =
        { outcome := .error (.pinningHttp r₂.status), posts := 3,
          sleeps := [(1/2 : ℚ) * 2 ^ 0, (1/2 : ℚ) * 2 ^ 1] } := by
      rw [show (1 : Nat) = 0 + 1 from rfl, pin_to_ipfs_loop, h2]
      simp [hn2]
    rw [s0, s1, s2]
    refine ⟨rfl, rfl, ?_⟩
    norm_num

/-- Witness for C7 at two concrete oracles: an always-404 pinner and an
always-503 pinner. -/
theorem C7_pin_retry_behavior_witness :
    (c7Oracle4xx 0 = .response ⟨404, true, true, none⟩ ∧
      400 ≤ (404 : Nat) ∧ (404 : Nat) < 500 ∧
      (pin_to_ipfs c7Oracle4xx).outcome = .error (.pinningHttp 404) ∧
      (pin_to_ipfs c7Oracle4xx).posts = 1 ∧ (pin_to_ipfs c7Oracle4xx).sleeps = []) ∧
    (c7Oracle5xx 0 = .response ⟨503, false, false, none⟩ ∧
      500 ≤ (503 : Nat) ∧
      (pin_to_ipfs c7Oracle5xx).outcome = .error (.pinningHttp 503) ∧
      (pin_to_ipfs c7Oracle5xx).posts = 3 ∧
      (pin_to_ipfs c7Oracle5xx).sleeps = [1/2, 1]) := by
  have t4 := (C7_pin_retry_behavior c7Oracle4xx ⟨404, true, true, none⟩
    ⟨404, true, true, none⟩ ⟨404, true, true, none⟩ rfl rfl rfl).1
    (by decide) (by decide)
  have t5 := (C7_pin_retry_behavior c7Oracle5xx ⟨503, false, false, none⟩
    ⟨503, false, false, none⟩ ⟨503, false, false, none⟩ rfl rfl rfl).2
    (by decide) (by decide) (by decide)
  exact ⟨⟨rfl, by decide, by decide, t4.1, t4.2.1, t4.2.2⟩,
    ⟨rfl, by decide, t5.1, t5.2.1, t5.2.2⟩⟩

/-! ## Envelope-hash claim theorems: C8 -/

/-- Claim C8 counterexample: the claim says a hash whose decoded length is not 32
bytes is rejected with `EnvelopeError` before any transaction is built.
With the two-byte hash `"abcd"` (pinning and CID conversion succeeding),
`send_intent` raises nothing and builds and sends a transaction whose
envelope-hash argument is the 2-byte string `[0xab, 0xcd]`. -/
theorem C8_counterexample_short_hash_accepted :
    (send_intent true true "abcd" payloadSample benignPinOracle benignCidConvert
      true true "0xhash").outcome = .ok "0xhash" ∧
    SendEvent.buildTransaction [0xab, 0xcd] [1, 2, 3] ∈
      (send_intent true true "abcd" payloadSample benignPinOracle benignCidConvert
        true true "0xhash").events ∧
    ([0xab, 0xcd] : List Nat).length ≠ 32 :=
  ⟨rfl, by decide, by decide⟩

/-- Claim C8 as amended: `send_intent` strips an optional `0x` prefix from the
envelope hash and hex-decodes it; a string that does not parse as hex
digit pairs is rejected with `EnvelopeError` before the nonce is read or
any transaction is built, while any string of valid hex pairs — of any
byte length, 32 or not — is accepted and its decoded bytes are passed to
`recordIntent`. -/
theorem C8_hash_normalization (h : String) :
    (bytesFromHex (strip0x h) = none →
      (send_intent true true h payloadSample benignPinOracle benignCidConvert
        true true "0xhash").outcome = .error (.envelopeError "Invalid envelope hash format") ∧
      (send_intent true true h payloadSample benignPinOracle benignCidConvert
        true true "0xhash").events.all (fun e => !isBuildTx e) = true) ∧
    (∀ bs, bytesFromHex (strip0x h) = some bs →
      (send_intent true true h payloadSample benignPinOracle benignCidConvert
        true true "0xhash").outcome = .ok "0xhash" ∧
      SendEvent.buildTransaction bs [1, 2, 3] ∈
        (send_intent true true h payloadSample benignPinOracle benignCidConvert
          true true "0xhash").events) := by
  constructor
  · intro hnone
    rw [show (send_intent true true h payloadSample benignPinOracle benignCidConvert
        true true "0xhash") =
      (match bytesFromHex (strip0x h) with
        | none =>
          { outcome := .error (.envelopeError "Invalid envelope hash format"),
            events := [SendEvent.validatePayload, .pinPayload, .cidToBytes, .normalizeHash] }
        | some hash_bytes =>
          { outcome := .ok "0xhash",
            events := [SendEvent.validatePayload, .pinPayload, .cidToBytes, .normalizeHash,
              .getNonce, .estimateGas, .buildTransaction hash_bytes [1, 2, 3],
              .signTransaction, .sendTransaction] } : SendResult) from rfl, hnone]
    exact ⟨rfl, by decide⟩
  · intro bs hsome
    rw [show (send_intent true true h payloadSample benignPinOracle benignCidConvert
        true true "0xhash") =
      (match bytesFromHex (strip0x h) with
        | none =>
          { outcome := .error (.envelopeError "Invalid envelope hash format"),
            events := [SendEvent.validatePayload, .pinPayload, .cidToBytes, .normalizeHash] }
        | some hash_bytes =>
          { outcome := .ok "0xhash",
            events := [SendEvent.validatePayload, .pinPayload, .cidToBytes, .normalizeHash,
              .getNonce, .estimateGas, .buildTransaction hash_bytes [1, 2, 3],
              .signTransaction, .sendTransaction] } : SendResult) from rfl, hsome]
    exact ⟨rfl, by simp⟩

/-- Witness for C8 at the non-hex hash `"0xzz"` and the short hex hash
`"abcd"`. -/
theorem C8_hash_normalization_witness :
    (bytesFromHex (strip0x "0xzz") = none ∧
      (send_intent true true "0xzz" payloadSample benignPinOracle benignCidConvert
        true true "0xhash").outcome = .error (.envelopeError "Invalid envelope hash format") ∧
      (send_intent true true "0xzz" payloadSample benignPinOracle benignCidConvert
        true true "0xhash").events.all (fun e => !isBuildTx e) = true) ∧
    (bytesFromHex (strip0x "abcd") = some [0xab, 0xcd] ∧
      (send_intent true true "abcd" payloadSample benignPinOracle benignCidConvert
        true true "0xhash").outcome = .ok "0xhash" ∧
      SendEvent.buildTransaction [0xab, 0xcd] [1, 2, 3] ∈
        (send_intent true true "abcd" payloadSample benignPinOracle benignCidConvert
          true true "0xhash").events) := by
  have t₁ := (C8_hash_normalization "0xzz").1 (by decide)
  have t₂ := (C8_hash_normalization "abcd").2 [0xab, 0xcd] (by decide)
  exact ⟨⟨by decide, t₁.1, t₁.2⟩, ⟨by decide, t₂.1, t₂.2⟩⟩

/-! ## KeyStore selection lemmas -/

theorem charsLe_refl : ∀ as, charsLe as as = true := by
  intro as
  induction as with
  | nil => rfl
  | cons a as ih => simp [charsLe, ih]

theorem charsLe_total : ∀ as bs, charsLe as bs = true ∨ charsLe bs as = true := by
  intro as
  induction as with
  | nil => intro bs; left; rfl
  | cons a as ih =>
    intro bs
    cases bs with
    | nil => right; rfl
    | cons b bs =>
      by_cases hab : a = b
      · subst hab
        rcases ih bs with h | h
        · left; simpa [charsLe] using h
        · right; simpa [charsLe] using h
      · rcases lt_or_gt_of_ne hab with hlt | hgt
        · left; simp [charsLe, hab, hlt]
        · right
          have hba : b ≠ a := fun hc => hab hc.symm
          simp [charsLe, hba, hgt]

theorem charsLe_trans :
    ∀ as bs cs, charsLe as bs = true → charsLe bs cs = true → charsLe as cs = true := by
  intro as
  induction as with
  | nil => intro bs cs _ _; rfl
  | cons a as ih =>
    intro bs cs h₁ h₂
    cases bs with
    | nil => simp [charsLe] at h₁
    | cons b bs =>
      cases cs with
      | nil => simp [charsLe] at h₂
      | cons c cs =>
        by_cases hab : a = b
        · subst hab
          simp only [charsLe, if_pos rfl] at h₁
          by_cases hbc : a = c
          · subst hbc
            simp only [charsLe, if_pos rfl] at h₂ ⊢
            exact ih bs cs h₁ h₂
          · simp only [charsLe, if_neg hbc] at h₂ ⊢
            exact h₂
        · simp only [charsLe, if_neg hab, decide_eq_true_eq] at h₁
          by_cases hbc : b = c
          · subst hbc
            simp [charsLe, hab, h₁]
          · simp only [charsLe, if_neg hbc, decide_eq_true_eq] at h₂
            have hlt : a < c := lt_trans h₁ h₂
            have hac : a ≠ c := ne_of_lt hlt
            simp [charsLe, hac, hlt]

theorem pyStrLe_refl (a : String) : pyStrLe a a = true := charsLe_refl _

theorem pyStrLe_total (a b : String) : pyStrLe a b = true ∨ pyStrLe b a = true :=
  charsLe_total _ _

theorem pyStrLe_trans {a b c : String} (h₁ : pyStrLe a b = true) (h₂ : pyStrLe b c = true) :
    pyStrLe a c = true := charsLe_trans _ _ _ h₁ h₂

theorem sortedDesc_head_firstMax :
    ∀ l, (sortedDesc l).head? = firstMaxBy l := by
  intro l
  induction l with
  | nil => rfl
  | cons x xs ih =>
    simp only [sortedDesc, firstMaxBy]
    cases hs : sortedDesc xs with
    | nil =>
      rw [hs] at ih
      simp only [List.head?] at ih
      rw [← ih]
      rfl
    | cons y ys =>
      rw [hs] at ih
      simp only [List.head?] at ih
      rw [← ih]
      by_cases hk : pyStrLe (sortKey y) (sortKey x) = true
      · simp [insertDesc, hk]
      · simp [insertDesc, hk]

theorem firstMaxBy_ne_none : ∀ z zs, firstMaxBy (z :: zs) ≠ none := by
  intro z zs h
  simp only [firstMaxBy] at h
  cases hz : firstMaxBy zs with
  | none => simp [hz] at h
  | some m =>
    rw [hz] at h
    by_cases hk : pyStrLe (sortKey m) (sortKey z) = true
    · simp [hk] at h
    · simp [hk] at h

theorem firstMaxBy_mem : ∀ l e, firstMaxBy l = some e → e ∈ l := by
  intro l
  induction l with
  | nil => intro e h; simp [firstMaxBy] at h
  | cons x xs ih =>
    intro e h
    simp only [firstMaxBy] at h
    cases hm : firstMaxBy xs with
    | none =>
      rw [hm] at h
      simp at h
      subst h
      exact List.mem_cons_self _ _
    | some m =>
      rw [hm] at h
      by_cases hk : pyStrLe (sortKey m) (sortKey x) = true
      · simp [hk] at h
        subst h
        exact List.mem_cons_self _ _
      · simp [hk] at h
        subst h
        exact List.mem_cons_of_mem _ (ih _ hm)

theorem firstMaxBy_ge :
    ∀ l e, firstMaxBy l = some e → ∀ x ∈ l, pyStrLe (sortKey x) (sortKey e) = true := by
  intro l
  induction l with
  | nil => intro e h; simp [firstMaxBy] at h
  | cons y ys ih =>
    intro e h x hx
    simp only [firstMaxBy] at h
    cases hm : firstMaxBy ys with
    | none =>
      rw [hm] at h
      simp at h
      subst h
      have hys : ys = [] := by
        cases ys with
        | nil => rfl
        | cons z zs => exact absurd hm (firstMaxBy_ne_none z zs)
      subst hys
      rcases List.mem_singleton.mp hx with rfl
      exact pyStrLe_refl _
    | some m =>
      rw [hm] at h
      by_cases hk : pyStrLe (sortKey m) (sortKey y) = true
      · simp [hk] at h
        subst h
        rcases List.mem_cons.mp hx with rfl | hx'
        · exact pyStrLe_refl _
        · exact pyStrLe_trans (ih _ hm _ hx') hk
      · simp [hk] at h
        rw [← h]
        rcases List.mem_cons.mp hx with rfl | hx'
        · rcases pyStrLe_total (sortKey x) (sortKey m) with ht | ht
          · exact ht
          · exact absurd ht hk
        · exact ih _ hm _ hx'

/-! ## KeyStore claim theorems: C9 -/

/-- Claim C9 counterexample: for two entries with equal `metadata.created_at`,
the claim's tie-break picks the entry that comes last in iteration order
(`storedB`), but Python's stable descending sort keeps equal keys in
original order, so the code returns the first (`storedA`). -/
theorem C9_counterexample_tie_goes_to_first :
    get_or_create_did [storedA, storedB] true freshSample = .got storedA ∧
    [storedA, storedB].getLast? = some storedB ∧
    storedA ≠ storedB ∧
    sortKey storedA = sortKey storedB := by
  refine ⟨by decide, by decide, by decide, by decide⟩

/-- Claim C9 as amended: for a non-empty store, `get_or_create_did` returns the
entry whose `created_at` sort key is the latest, breaking ties by the
entry that comes FIRST in the store's iteration order; for an empty store
it fails when `auto` is false and persists the freshly generated identity
when `auto` is true. -/
theorem C9_get_or_create_did_selection (store : List StoredIdentity) (auto : Bool)
    (fresh : StoredIdentity) :
    (store = [] → auto = false → get_or_create_did store auto fresh = .failed) ∧
    (store = [] → auto = true → get_or_create_did store auto fresh = .created fresh [fresh]) ∧
    (∀ e, firstMaxBy store = some e →
      get_or_create_did store auto fresh = .got e ∧ e ∈ store ∧
      ∀ x ∈ store, pyStrLe (sortKey x) (sortKey e) = true) := by
  refine ⟨?_, ?_, ?_⟩
  · intro hs ha; subst hs; simp [get_or_create_did, ha]
  · intro hs ha; subst hs; simp [get_or_create_did, ha]
  · intro e he
    refine ⟨?_, firstMaxBy_mem _ _ he, firstMaxBy_ge _ _ he⟩
    cases store with
    | nil => simp [firstMaxBy] at he
    | cons y ys =>
      simp only [get_or_create_did]
      rw [sortedDesc_head_firstMax, he]
      rfl

/-- Witness for C9 at an empty store (both `auto` values) and at a store of
three entries where the middle one has the latest `created_at`. -/
theorem C9_get_or_create_did_selection_witness :
    (([] : List StoredIdentity) = [] ∧ false = false ∧
      get_or_create_did [] false freshSample = .failed) ∧
    (([] : List StoredIdentity) = [] ∧ true = true ∧
      get_or_create_did [] true freshSample = .created freshSample [freshSample]) ∧
    (firstMaxBy [storedA, freshSample, storedB] = some freshSample ∧
      get_or_create_did [storedA, freshSample, storedB] true storedA = .got freshSample ∧
      freshSample ∈ [storedA, freshSample, storedB] ∧
      ∀ x ∈ [storedA, freshSample, storedB],
        pyStrLe (sortKey x) (sortKey freshSample) = true) := by
  have t₁ := (C9_get_or_create_did_selection [] false freshSample).1 rfl rfl
  have t₂ := (C9_get_or_create_did_selection [] true freshSample).2.1 rfl rfl
  have t₃ := (C9_get_or_create_did_selection [storedA, freshSample, storedB] true
    storedA).2.2 freshSample (by decide)
  exact ⟨⟨rfl, rfl, t₁⟩, ⟨rfl, rfl, t₂⟩, ⟨by decide, t₃.1, t₃.2.1, t₃.2.2⟩⟩

end IntentLayer
